import Mathlib

/-!
Verification development for the simple-bundler repository.

The two engines under verification are the cart expansion transform
(`src/extensions/bundle-cart-transform/src/cart_transform_run.ts`) and the
variant mapper (`src/app/routes/app.bundles.new.tsx`, helpers `norm`,
`variantValueBlob`, `matchesByValues`, `writeBundleComponentsMetafields`,
and `syncBundleVariants` with its single-default-variant special case).
The TypeScript functions are embedded shallowly: JavaScript strings are
`String` manipulated through `List Char` primitives (Lean's builtin string
methods do not reduce in the kernel), the untyped result of the external
`JSON.parse` is an explicit `Json` tree, network reads become explicit
inputs, and network writes become explicit effect values in the result.
-/

namespace SimpleBundler

/- ### Character-level string primitives.
Each models the JavaScript string builtin of the same name, at the ASCII
behaviour the repository relies on. -/

/-- Models JavaScript `hay.startsWith(pattern)` on character lists. -/
def startsWithL : List Char → List Char → Bool
  | _, [] => true
  | [], _ :: _ => false
  | c :: cs, p :: ps => c == p && startsWithL cs ps

/-- Models JavaScript `hay.includes(needle)` on character lists. -/
def includesL : List Char → List Char → Bool
  | [], needle => needle.isEmpty
  | c :: t, needle => startsWithL (c :: t) needle || includesL t needle

/-- Models JavaScript `s.startsWith(p)`. -/
def jsStartsWith (s p : String) : Bool := startsWithL s.data p.data

/-- Models JavaScript `s.includes(sub)`. -/
def jsIncludes (s sub : String) : Bool := includesL s.data sub.data

/-- Models JavaScript `Array.prototype.join(sep)` on an array of strings. -/
def jsJoin (sep : String) : List String → String
  | [] => ""
  | [s] => s
  | s :: s2 :: rest => s ++ sep ++ jsJoin sep (s2 :: rest)

/-- Models JavaScript `toLowerCase` (ASCII case folding). -/
def lowerL (l : List Char) : List Char := l.map Char.toLower

/-- Models JavaScript `trim`: drop whitespace from both ends. -/
def trimL (l : List Char) : List Char :=
  ((l.dropWhile Char.isWhitespace).reverse.dropWhile Char.isWhitespace).reverse

/-- The character class `[a-z0-9]` of the regular expression in `norm`. -/
def isLowerAlnum (c : Char) : Bool :=
  ('a' ≤ c && c ≤ 'z') || ('0' ≤ c && c ≤ '9')

/-- Worker for `replace(/[^a-z0-9]+/g, " ")`: every maximal run of
characters outside `[a-z0-9]` becomes one space.  The flag records whether
the previous character was part of such a run. -/
def collapseAux : Bool → List Char → List Char
  | _, [] => []
  | inRun, c :: rest =>
    if isLowerAlnum c then c :: collapseAux false rest
    else if inRun then collapseAux true rest
    else ' ' :: collapseAux true rest

/-- Models `replace(/[^a-z0-9]+/g, " ")` on an already lowercased string. -/
def collapseNonAlnum (l : List Char) : List Char := collapseAux false l

/-- `norm` from `src/app/routes/app.bundles.new.tsx` lines 80 to 85:
lowercase, collapse runs of characters outside `[a-z0-9]` to single
spaces, trim. -/
def norm (s : String) : String := ⟨trimL (collapseNonAlnum (lowerL s.data))⟩

/-- The zero-width characters named by the specification of the
normalization utility. -/
def isZeroWidth (c : Char) : Bool :=
  c == '\u200B' || c == '\u200C' || c == '\u200D' || c == '\uFEFF'

/-- Removing zero-width characters, the spec's "strip zero-width
characters" step. -/
def stripZeroWidth (l : List Char) : List Char := l.filter fun c => !isZeroWidth c

/-- Written from the spec's words (claim C8), for comparison with `norm`:
"produce a canonical comparison key: lowercase, collapse runs of
non-alphanumeric characters to single spaces, strip zero-width characters,
trim". -/
def normSpec (s : String) : String :=
  ⟨trimL (stripZeroWidth (collapseNonAlnum (lowerL s.data)))⟩

/- ### The outcome of the external `JSON.parse` at the input boundary. -/

/-- A JSON value, the result of a successful `JSON.parse`. -/
inductive Json where
  | null
  | bool (b : Bool)
  | num (n : Int)
  | str (s : String)
  | arr (elems : List Json)
  | obj (fields : List (String × Json))

/-- A raw metafield string as seen through the `JSON.parse` boundary: the
empty string (falsy in JavaScript), a non-empty string on which
`JSON.parse` throws, or a non-empty string parsing to a `Json` value. -/
inductive RawValue where
  | emptyStr
  | unparseable
  | parsed (j : Json)

/- ### Data model of the cart transform
(`src/extensions/bundle-cart-transform/src/cart_transform_run.ts`). -/

structure Attribute where
  key : String
  value : String
deriving DecidableEq

structure ExpandedCartItem where
  merchandiseId : String
  quantity : Nat
  attributes : List Attribute
deriving DecidableEq

structure LineExpand where
  cartLineId : String
  expandedCartItems : List ExpandedCartItem
deriving DecidableEq

structure Operation where
  lineExpand : LineExpand
deriving DecidableEq

structure CartTransformRunResult where
  operations : List Operation
deriving DecidableEq

/-- A cart line's merchandise: `__typename`, the variant id, and
`componentReference?.value` — `none` when the merchandise has no
`componentReference` metafield (or its value is null or undefined). -/
structure Merchandise where
  typename : String
  id : String
  componentReference : Option RawValue

structure CartLine where
  id : String
  quantity : Nat
  merchandise : Merchandise

structure Cart where
  lines : List CartLine

structure RunInput where
  cart : Cart

/-- `NO_CHANGES` from line 7 of `cart_transform_run.ts`. -/
def NO_CHANGES : CartTransformRunResult := { operations := [] }

/-- `parseVariantIdList` from lines 50 to 66 of `cart_transform_run.ts`:
null, undefined or empty strings give `[]`; a parse failure is caught and
gives `[]`; a parsed array keeps exactly its entries that are strings
starting with `"gid://"`; any other parsed value gives `[]`. -/
def parseVariantIdList (raw : Option RawValue) : List String :=
  match raw with
  | none => []
  | some .emptyStr => []
  | some .unparseable => []
  | some (.parsed j) =>
    match j with
    | .arr elems =>
      elems.filterMap fun v =>
        match v with
        | .str s => if jsStartsWith s "gid://" then some s else none
        | _ => none
    | _ => []

/-- The body of the `for` loop of `cartTransformRun` (lines 12 to 45):
the operation a single cart line contributes, or `none` when the loop
`continue`s past the line. -/
def expandLine (line : CartLine) : Option Operation :=
  let merch := line.merchandise
  if merch.typename != "ProductVariant" then none
  else
    let componentVariantIds := parseVariantIdList merch.componentReference
    if componentVariantIds.length == 0 then none
    else
      let expandedCartItems := componentVariantIds.map fun variantGid =>
        { merchandiseId := variantGid
          quantity := line.quantity
          attributes := [
            { key := "_bundle_parent_variant_id", value := merch.id },
            { key := "_bundle_component", value := "true" }] : ExpandedCartItem }
      some { lineExpand := { cartLineId := line.id, expandedCartItems := expandedCartItems } }

/-- `cartTransformRun` from lines 9 to 48 of `cart_transform_run.ts`. -/
def cartTransformRun (input : RunInput) : CartTransformRunResult :=
  let operations := input.cart.lines.filterMap expandLine
  if operations.length != 0 then { operations := operations } else NO_CHANGES

/- ### Exception-aware embedding of the same transform.
`JSON.parse` is the one fallible call the transform makes; here it is kept
as an `Except` computation and the `try`/`catch` of `parseVariantIdList`
becomes an explicit handler, so that "the transform never raises" is a
statement about this embedding rather than a triviality. -/

/-- The external `JSON.parse` as a fallible computation. -/
def jsonParseE : RawValue → Except String Json
  | .emptyStr => .error "Unexpected end of JSON input"
  | .unparseable => .error "JSON.parse: syntax error"
  | .parsed j => .ok j

/-- `parseVariantIdList` with the `try`/`catch` explicit: a thrown parse
error is caught and ignored, falling through to `return []`. -/
def parseVariantIdListE (raw : Option RawValue) : Except String (List String) :=
  match raw with
  | none => .ok []
  | some .emptyStr => .ok []
  | some r =>
    match jsonParseE r with
    | .error _ => .ok []
    | .ok parsed =>
      match parsed with
      | .arr elems =>
        .ok (elems.filterMap fun v =>
          match v with
          | .str s => if jsStartsWith s "gid://" then some s else none
          | _ => none)
      | _ => .ok []

/-- The loop body of `cartTransformRun`, propagating any uncaught
exception of the parse step. -/
def expandLineE (line : CartLine) : Except String (Option Operation) :=
  let merch := line.merchandise
  if merch.typename != "ProductVariant" then .ok none
  else
    match parseVariantIdListE merch.componentReference with
    | .error e => .error e
    | .ok componentVariantIds =>
      if componentVariantIds.length == 0 then .ok none
      else
        let expandedCartItems := componentVariantIds.map fun variantGid =>
          { merchandiseId := variantGid
            quantity := line.quantity
            attributes := [
              { key := "_bundle_parent_variant_id", value := merch.id },
              { key := "_bundle_component", value := "true" }] : ExpandedCartItem }
        .ok (some { lineExpand :=
          { cartLineId := line.id, expandedCartItems := expandedCartItems } })

/-- The `for` loop of `cartTransformRun`, propagating any uncaught
exception of a loop iteration. -/
def collectOperationsE : List CartLine → Except String (List Operation)
  | [] => .ok []
  | line :: rest =>
    match expandLineE line with
    | .error e => .error e
    | .ok opt =>
      match collectOperationsE rest with
      | .error e => .error e
      | .ok ops =>
        match opt with
        | none => .ok ops
        | some op => .ok (op :: ops)

/-- `cartTransformRun`, propagating any uncaught exception. -/
def cartTransformRunE (input : RunInput) : Except String CartTransformRunResult :=
  match collectOperationsE input.cart.lines with
  | .error e => .error e
  | .ok operations =>
    if operations.length != 0 then .ok { operations := operations } else .ok NO_CHANGES

/- ### Data model of the variant mapper
(`src/app/routes/app.bundles.new.tsx`). -/

/-- One entry of a variant's `selectedOptions`. -/
structure SelectedOption where
  name : String
  value : String
deriving DecidableEq

/-- `VariantNode` from `app.bundles.new.tsx` lines 62 to 65. -/
structure VariantNode where
  id : String
  selectedOptions : List SelectedOption
deriving DecidableEq

/-- `variantValueBlob` from `app.bundles.new.tsx` lines 87 to 89:
normalize the space-joined option values of a variant. -/
def variantValueBlob (v : VariantNode) : String :=
  norm (jsJoin " " (v.selectedOptions.map fun o => o.value))

/-- `matchesByValues` from `app.bundles.new.tsx` lines 91 to 97: every
normalized component option value must contain or be contained in the
bundle variant's value blob. -/
def matchesByValues (bundleVar componentVar : VariantNode) : Bool :=
  let b := variantValueBlob bundleVar
  componentVar.selectedOptions.all fun o =>
    let cv := norm o.value
    jsIncludes b cv || jsIncludes cv b

/-- Substring as a proposition: `needle` occurs contiguously inside
`hay`.  Used to state the spec's containment wording for claim C3. -/
def SubstrOf (needle hay : List Char) : Prop :=
  ∃ front back, hay = front ++ needle ++ back

/-- Written from the spec's words (claim C3): "A component Variant is
considered a match for a bundle Variant if every one of its normalized
option values is a substring of the bundle Variant's value blob". -/
def MatchesByValuesSpec (bundleVar componentVar : VariantNode) : Prop :=
  ∀ o ∈ componentVar.selectedOptions,
    SubstrOf (norm o.value).data (variantValueBlob bundleVar).data

/-- One `MetafieldsSetInput` entry as built by
`writeBundleComponentsMetafields` (lines 129 to 136). -/
structure Metafield where
  ownerId : String
  «namespace» : String
  key : String
  type : String
  value : String
deriving DecidableEq

/-- Models `JSON.stringify` on an array of plain strings (the variant ids
contain no characters needing escapes). -/
def jsonStringifyStrings (xs : List String) : String :=
  "[" ++ jsJoin "," (xs.map fun s => "\"" ++ s ++ "\"") ++ "]"

/-- `variantValueBlob(bv) || bv.id` from line 125: the value blob, or the
variant id when the blob is the empty string (falsy). -/
def blobOrId (bv : VariantNode) : String :=
  if variantValueBlob bv == "" then bv.id else variantValueBlob bv

/-- The `for` loop of `writeBundleComponentsMetafields` (lines 119 to
136): the metafields to write and the `missing` entries, both in bundle
variant order. -/
def collectComponentMetafields (comp1Variants comp2Variants : List VariantNode) :
    List VariantNode → List Metafield × List String
  | [] => ([], [])
  | bv :: rest =>
    let (mfs, missing) := collectComponentMetafields comp1Variants comp2Variants rest
    let c1 := (comp1Variants.find? fun v => matchesByValues bv v).map fun v => v.id
    let c2 := (comp2Variants.find? fun v => matchesByValues bv v).map fun v => v.id
    match c1, c2 with
    | some id1, some id2 =>
      ({ ownerId := bv.id
         «namespace» := "simple_bundler"
         key := "components"
         type := "json"
         value := jsonStringifyStrings [id1, id2] } :: mfs, missing)
    | _, _ => (mfs, blobOrId bv :: missing)

/-- What `writeBundleComponentsMetafields` does: the batched
`metafieldsSet` calls it performs (each entry one call), and the
`{ ok, error }` result it returns, as an `Except`. -/
structure MapperOutcome where
  writes : List (List Metafield)
  result : Except String Unit

/-- `writeBundleComponentsMetafields` from `app.bundles.new.tsx` lines 99
to 158, as a function of the three fetched variant lists.  The platform's
response to the one batched write is the `userErrors` argument (the
per-item error messages, empty when the write succeeds). -/
def writeBundleComponentsMetafields
    (bundleVariants comp1Variants comp2Variants : List VariantNode)
    (userErrors : List String) : MapperOutcome :=
  if bundleVariants.length == 0 then
    { writes := [], result := .error "Bundle has no variants." }
  else if comp1Variants.length == 0 || comp2Variants.length == 0 then
    { writes := [], result := .error "A component product has no variants." }
  else
    let (metafields, missing) :=
      collectComponentMetafields comp1Variants comp2Variants bundleVariants
    if missing.length != 0 then
      { writes := []
        result := .error
          ("Could not map these bundle variant values to component variants: " ++
            jsJoin ", " missing) }
    else if userErrors.length != 0 then
      { writes := [metafields], result := .error (jsJoin ", " userErrors) }
    else
      { writes := [metafields], result := .ok () }

/-- Closed form of the `missing` list the loop accumulates: the
`blobOrId` of every bundle variant for which one of the two component
lists has no matching variant, in bundle variant order. -/
def unmappedBlobs (comp1Variants comp2Variants bundleVariants : List VariantNode) :
    List String :=
  bundleVariants.filterMap fun bv =>
    if ((comp1Variants.find? fun v => matchesByValues bv v).isNone ||
        (comp2Variants.find? fun v => matchesByValues bv v).isNone) then
      some (blobOrId bv)
    else none

/- ### The sync-time variant mapper
(`syncBundleVariants`, the second document of
`src/extensions/bundle-cart-transform/src/cart_transform_run.ts`). -/

/-- A variant node as fetched by `syncBundleVariants`: id, title and
selected options. -/
structure SyncVariantNode where
  id : String
  title : String
  selectedOptions : List SelectedOption
deriving DecidableEq

/-- One value of a product option. -/
structure ProductOptionValue where
  name : String
deriving DecidableEq

/-- A product option with its values. -/
structure ProductOption where
  id : String
  name : String
  optionValues : List ProductOptionValue
deriving DecidableEq

/-- A product as fetched by `syncBundleVariants`. -/
structure ProductNode where
  id : String
  title : String
  options : List ProductOption
  variants : List SyncVariantNode
deriving DecidableEq

/-- The external calls `syncBundleVariants` makes, in order: the
`writeBundleMetafield` helper, `productOptionsCreate`,
`productVariantDelete` and `productVariantsBulkCreate`. -/
inductive SyncEffect where
  | metafieldWrite (variantId : String) (componentVariantIds : List String)
  | optionCreate (productId : String) (optionName : String) (values : List String)
  | variantDelete (variantId : String)
  | variantsCreate (productId : String) (values : List String)
deriving DecidableEq

/-- `normalize` from the `syncBundleVariants` document:
`String(s || "").trim().toLowerCase()`. -/
def normalize (s : String) : String := ⟨lowerL (trimL s.data)⟩

/-- `normalize` applied to a possibly undefined string
(`String(s || "")` turns undefined into the empty string). -/
def normalizeOpt (s : Option String) : String := normalize (s.getD "")

/-- CASE 2 of `syncBundleVariants` (the shared-option path, STEP 2 to
STEP 6).  The two later refetches of the bundle product are the
`refreshedBundle` and `finalVariants` arguments. -/
def syncBundleVariantsSharedOption (bundleProductId : String)
    (bundle productA productB : ProductNode)
    (refreshedBundle : ProductNode) (finalVariants : List SyncVariantNode) :
    Except String (List SyncEffect) :=
  let aVariants := productA.variants
  let bVariants := productB.variants
  let bundleOptionName := productA.options.head?.map fun o => o.name
  let sharedValues :=
    match productA.options.head? with
    | none => []
    | some o =>
      (o.optionValues.map fun v => v.name).filter fun value =>
        match productB.options.head? with
        | none => false
        | some ob => ob.optionValues.any fun b => normalize b.name == normalize value
  match bundleOptionName with
  | none => .error "No shared variant option found."
  | some optName =>
    if optName == "" || sharedValues.length == 0 then
      .error "No shared variant option found."
    else
      let effects1 : List SyncEffect :=
        if bundle.options.any fun o => normalize o.name == normalize optName then []
        else [.optionCreate bundleProductId optName sharedValues]
      let bundleVariants := refreshedBundle.variants
      let effects2 : List SyncEffect :=
        if sharedValues.length > 1 then
          match bundleVariants.find? fun v => normalize v.title == "default title" with
          | some defaultVariant => [.variantDelete defaultVariant.id]
          | none => []
        else []
      let existingValues := bundleVariants.map fun v =>
        normalizeOpt (v.selectedOptions.head?.map fun o => o.value)
      let variantsToCreate := sharedValues.filter fun value =>
        !(existingValues.contains (normalize value))
      let effects3 : List SyncEffect :=
        if variantsToCreate.length != 0 then
          [.variantsCreate bundleProductId variantsToCreate]
        else []
      let effects4 : List SyncEffect :=
        finalVariants.filterMap fun variant =>
          let value := variant.selectedOptions.head?.map fun o => o.value
          let componentAVariant := aVariants.find? fun v =>
            normalizeOpt (v.selectedOptions.head?.map fun o => o.value) == normalizeOpt value
          let componentBVariant := bVariants.find? fun v =>
            normalizeOpt (v.selectedOptions.head?.map fun o => o.value) == normalizeOpt value
          match componentAVariant, componentBVariant with
          | some ca, some cb => some (.metafieldWrite variant.id [ca.id, cb.id])
          | _, _ => none
      .ok (effects1 ++ effects2 ++ effects3 ++ effects4)

/-- `syncBundleVariants`, as a function of the product data its three
concurrent reads return (`bundle`, `productA`, `productB`) and of the
later refetches.  CASE 1 (the single-default-variant special case) writes
one metafield for the bundle's first variant and returns; reading `.id`
off a missing first bundle variant throws in JavaScript, modelled as an
error. -/
def syncBundleVariants (bundleProductId : String)
    (bundle productA productB : ProductNode)
    (refreshedBundle : ProductNode) (finalVariants : List SyncVariantNode) :
    Except String (List SyncEffect) :=
  match productA.variants, productB.variants with
  | [a], [b] =>
    if a.title == "Default Title" && b.title == "Default Title" then
      match bundle.variants with
      | [] => .error "TypeError: cannot read property id of undefined"
      | bundleVariant :: _ => .ok [.metafieldWrite bundleVariant.id [a.id, b.id]]
    else
      syncBundleVariantsSharedOption bundleProductId bundle productA productB
        refreshedBundle finalVariants
  | _, _ =>
    syncBundleVariantsSharedOption bundleProductId bundle productA productB
      refreshedBundle finalVariants

/- ### Concrete sample inputs used by witnesses and counterexamples. -/

/-- A bundle cart line whose payload parses to two valid variant ids. -/
def c1Line : CartLine :=
  { id := "gid://shopify/CartLine/1"
    quantity := 2
    merchandise :=
      { typename := "ProductVariant"
        id := "gid://shopify/ProductVariant/900"
        componentReference := some (.parsed (.arr
          [.str "gid://shopify/ProductVariant/1",
           .str "gid://shopify/ProductVariant/2"])) } }

def c1Input : RunInput := { cart := { lines := [c1Line] } }

/-- A cart line whose payload parses to exactly one valid variant id. -/
def c2Line : CartLine :=
  { id := "gid://shopify/CartLine/2"
    quantity := 1
    merchandise :=
      { typename := "ProductVariant"
        id := "gid://shopify/ProductVariant/901"
        componentReference := some (.parsed (.arr
          [.str "gid://shopify/ProductVariant/77"])) } }

def c2Input : RunInput := { cart := { lines := [c2Line] } }

/-- A cart line whose payload is a string `JSON.parse` rejects. -/
def c2wLine : CartLine :=
  { id := "gid://shopify/CartLine/3"
    quantity := 3
    merchandise :=
      { typename := "ProductVariant"
        id := "gid://shopify/ProductVariant/902"
        componentReference := some .unparseable } }

def c2wInput : RunInput := { cart := { lines := [c2wLine] } }

/-- A bundle variant whose value blob is `"black"`. -/
def c3BundleVar : VariantNode :=
  { id := "gid://shopify/ProductVariant/300"
    selectedOptions := [{ name := "Color", value := "Black" }] }

/-- A component variant whose sole normalized option value is
`"obsidian black"`. -/
def c3ComponentVar : VariantNode :=
  { id := "gid://shopify/ProductVariant/301"
    selectedOptions := [{ name := "Color", value := "Obsidian Black" }] }

/-- A bundle variant with value `"Red"`, unmatched by the components
below. -/
def c4Bv : VariantNode :=
  { id := "gid://shopify/ProductVariant/400"
    selectedOptions := [{ name := "Color", value := "Red" }] }

def c4Comp1 : VariantNode :=
  { id := "gid://shopify/ProductVariant/401"
    selectedOptions := [{ name := "Color", value := "Blue" }] }

def c4Comp2 : VariantNode :=
  { id := "gid://shopify/ProductVariant/402"
    selectedOptions := [{ name := "Color", value := "Blue" }] }

/-- Sole variant of the first component product: a default-title variant
with unrelated option text. -/
def c7A : SyncVariantNode :=
  { id := "gid://shopify/ProductVariant/701"
    title := "Default Title"
    selectedOptions := [{ name := "Title", value := "Red" }] }

/-- Sole variant of the second component product, with different
unrelated option text. -/
def c7B : SyncVariantNode :=
  { id := "gid://shopify/ProductVariant/702"
    title := "Default Title"
    selectedOptions := [{ name := "Size", value := "XL" }] }

/-- The bundle's sole variant, with option text matching neither
component. -/
def c7BundleVar : SyncVariantNode :=
  { id := "gid://shopify/ProductVariant/700"
    title := "Banana"
    selectedOptions := [{ name := "Flavor", value := "Banana" }] }

def c7Bundle : ProductNode :=
  { id := "gid://shopify/Product/70", title := "Bundle", options := [],
    variants := [c7BundleVar] }

def c7ProductA : ProductNode :=
  { id := "gid://shopify/Product/71", title := "A", options := [],
    variants := [c7A] }

def c7ProductB : ProductNode :=
  { id := "gid://shopify/Product/72", title := "B", options := [],
    variants := [c7B] }

/- ### Helper lemmas about the cart transform. -/

theorem cartTransformRun_operations (input : RunInput) :
    (cartTransformRun input).operations = input.cart.lines.filterMap expandLine := by
  unfold cartTransformRun
  by_cases h : (input.cart.lines.filterMap expandLine).length = 0
  · rw [List.length_eq_zero] at h
    simp [h, NO_CHANGES]
  · simp [h]

theorem expandLine_cartLineId {line : CartLine} {op : Operation}
    (h : expandLine line = some op) : op.lineExpand.cartLineId = line.id := by
  unfold expandLine at h
  dsimp only at h
  split at h
  · simp at h
  · split at h
    · simp at h
    · cases h
      rfl

theorem parseVariantIdList_arr_eq_nil (elems : List Json)
    (h : ∀ v ∈ elems, ∀ s, v = .str s → jsStartsWith s "gid://" = false) :
    parseVariantIdList (some (.parsed (.arr elems))) = [] := by
  induction elems with
  | nil => rfl
  | cons v rest ih =>
    have hrest := ih fun x hx => h x (List.mem_cons_of_mem _ hx)
    unfold parseVariantIdList at hrest ⊢
    dsimp only at hrest ⊢
    rw [List.filterMap_cons]
    cases v with
    | str s =>
      have hs := h (.str s) (List.mem_cons_self _ _) s rfl
      simpa [hs] using hrest
    | null => exact hrest
    | bool b => exact hrest
    | num n => exact hrest
    | arr xs => exact hrest
    | obj fs => exact hrest

/- ### Claim theorems about the cart transform. -/

/-- Claim C1: a cart line whose merchandise is a ProductVariant and whose
mapping payload parses to exactly the two component ids `i1, i2`
contributes exactly one expansion operation — its replacement lines are
`i1` then `i2` in payload order, each with the line's quantity and the
attributes marking it a bundle component of the parent variant — and the
transform's output is exactly the per-line contributions in line order. -/
theorem c1_bundle_line_two_component_expansion
    (input : RunInput) (line : CartLine) (i1 i2 : String)
    (hline : line ∈ input.cart.lines)
    (htype : line.merchandise.typename = "ProductVariant")
    (hparse : parseVariantIdList line.merchandise.componentReference = [i1, i2]) :
    expandLine line = some
      { lineExpand :=
        { cartLineId := line.id
          expandedCartItems := [
            { merchandiseId := i1
              quantity := line.quantity
              attributes := [
                { key := "_bundle_parent_variant_id", value := line.merchandise.id },
                { key := "_bundle_component", value := "true" }] },
            { merchandiseId := i2
              quantity := line.quantity
              attributes := [
                { key := "_bundle_parent_variant_id", value := line.merchandise.id },
                { key := "_bundle_component", value := "true" }] }] } } ∧
    (cartTransformRun input).operations = input.cart.lines.filterMap expandLine := by
  refine ⟨?_, cartTransformRun_operations input⟩
  unfold expandLine
  dsimp only
  rw [htype, hparse]
  rfl

/-- Witness for C1 at a concrete one-line cart of quantity 2. -/
theorem c1_bundle_line_two_component_expansion_witness :
    expandLine c1Line = some
      { lineExpand :=
        { cartLineId := c1Line.id
          expandedCartItems := [
            { merchandiseId := "gid://shopify/ProductVariant/1"
              quantity := c1Line.quantity
              attributes := [
                { key := "_bundle_parent_variant_id", value := c1Line.merchandise.id },
                { key := "_bundle_component", value := "true" }] },
            { merchandiseId := "gid://shopify/ProductVariant/2"
              quantity := c1Line.quantity
              attributes := [
                { key := "_bundle_parent_variant_id", value := c1Line.merchandise.id },
                { key := "_bundle_component", value := "true" }] }] } } ∧
    (cartTransformRun c1Input).operations = c1Input.cart.lines.filterMap expandLine :=
  c1_bundle_line_two_component_expansion c1Input c1Line
    "gid://shopify/ProductVariant/1" "gid://shopify/ProductVariant/2"
    (List.mem_cons_self _ _) rfl rfl

/-- Claim C2 counterexample: a payload holding exactly one valid variant
id — fewer than the two the claim requires — is not skipped: the
transform emits an operation for the line. -/
theorem c2_counterexample_single_valid_id :
    parseVariantIdList c2Line.merchandise.componentReference =
      ["gid://shopify/ProductVariant/77"] ∧
    (cartTransformRun c2Input).operations.length = 1 :=
  ⟨rfl, rfl⟩

/-- Claim C2 as amended: a line is skipped (contributes no operation)
whenever its payload yields zero valid ids after parsing — in particular
for null or missing payloads, unparseable strings, parsed non-arrays, and
arrays none of whose entries are strings with the `gid://` id prefix —
but a payload with one or more valid ids is expanded, so the skip
threshold is zero valid ids, not two. -/
theorem c2_amended_zero_valid_ids_skipped (input : RunInput) (line : CartLine)
    (hline : line ∈ input.cart.lines)
    (hzero : parseVariantIdList line.merchandise.componentReference = []) :
    expandLine line = none ∧
    (cartTransformRun input).operations = input.cart.lines.filterMap expandLine ∧
    parseVariantIdList none = [] ∧
    parseVariantIdList (some .unparseable) = [] ∧
    (∀ j : Json, (∀ elems, j ≠ .arr elems) →
      parseVariantIdList (some (.parsed j)) = []) ∧
    (∀ elems : List Json,
      (∀ v ∈ elems, ∀ s, v = .str s → jsStartsWith s "gid://" = false) →
      parseVariantIdList (some (.parsed (.arr elems))) = []) := by
  refine ⟨?_, cartTransformRun_operations input, rfl, rfl, ?_, parseVariantIdList_arr_eq_nil⟩
  · unfold expandLine
    dsimp only
    rw [hzero]
    split
    · rfl
    · rfl
  · intro j hj
    cases j with
    | arr elems => exact absurd rfl (hj elems)
    | null => rfl
    | bool b => rfl
    | num n => rfl
    | str s => rfl
    | obj fs => rfl

/-- Witness for the amended C2 at a concrete cart whose only line carries
an unparseable payload. -/
theorem c2_amended_zero_valid_ids_skipped_witness :
    expandLine c2wLine = none ∧
    (cartTransformRun c2wInput).operations = c2wInput.cart.lines.filterMap expandLine ∧
    parseVariantIdList none = [] ∧
    parseVariantIdList (some .unparseable) = [] ∧
    (∀ j : Json, (∀ elems, j ≠ .arr elems) →
      parseVariantIdList (some (.parsed j)) = []) ∧
    (∀ elems : List Json,
      (∀ v ∈ elems, ∀ s, v = .str s → jsStartsWith s "gid://" = false) →
      parseVariantIdList (some (.parsed (.arr elems))) = []) :=
  c2_amended_zero_valid_ids_skipped c2wInput c2wLine (List.mem_cons_self _ _) rfl

/-- Claim C6: the transform is total and never raises.  In the
exception-aware embedding, where the fallible `JSON.parse` propagates and
the `catch` is explicit, every input — malformed payloads included —
yields an `ok` result, the same value the pure transform computes. -/
theorem c6_transform_never_raises (input : RunInput) :
    cartTransformRunE input = .ok (cartTransformRun input) := by
  have hparse : ∀ raw, parseVariantIdListE raw = .ok (parseVariantIdList raw) := by
    intro raw
    match raw with
    | none => rfl
    | some .emptyStr => rfl
    | some .unparseable => rfl
    | some (.parsed j) => cases j <;> rfl
  have hline : ∀ line, expandLineE line = .ok (expandLine line) := by
    intro line
    unfold expandLineE expandLine
    dsimp only
    rw [hparse]
    dsimp only
    split
    · rfl
    · split
      · rfl
      · rfl
  have hcollect : ∀ lines, collectOperationsE lines = .ok (lines.filterMap expandLine) := by
    intro lines
    induction lines with
    | nil => rfl
    | cons line rest ih =>
      unfold collectOperationsE
      rw [hline, ih, List.filterMap_cons]
      cases expandLine line <;> rfl
  unfold cartTransformRunE cartTransformRun
  rw [hcollect]
  dsimp only
  split
  · rfl
  · rfl

/-- Claim C10: every operation the transform emits comes from an input
line — the output is exactly the per-line contributions in input order,
so each line yields at most one operation, the operation count is bounded
by the line count, and every emitted operation's line id is the id of
some input line. -/
theorem c10_operations_respect_input_lines (input : RunInput) :
    (cartTransformRun input).operations = input.cart.lines.filterMap expandLine ∧
    (cartTransformRun input).operations.length ≤ input.cart.lines.length ∧
    ∀ op ∈ (cartTransformRun input).operations,
      ∃ line ∈ input.cart.lines, op.lineExpand.cartLineId = line.id := by
  have h := cartTransformRun_operations input
  refine ⟨h, ?_, ?_⟩
  · rw [h]
    exact List.length_filterMap_le _ _
  · intro op hop
    rw [h] at hop
    obtain ⟨line, hline, hsome⟩ := List.mem_filterMap.mp hop
    exact ⟨line, hline, expandLine_cartLineId hsome⟩

/- ### Substring search: the list-level `includes` agrees with the
existential substring decomposition. -/

theorem startsWithL_iff (hay needle : List Char) :
    startsWithL hay needle = true ↔ ∃ rest, hay = needle ++ rest := by
  induction needle generalizing hay with
  | nil =>
    constructor
    · intro _
      exact ⟨hay, rfl⟩
    · intro _
      cases hay <;> rfl
  | cons n ns ih =>
    cases hay with
    | nil =>
      constructor
      · intro h
        simp [startsWithL] at h
      · rintro ⟨rest, hrest⟩
        simp at hrest
    | cons c cs =>
      constructor
      · intro h
        simp only [startsWithL, Bool.and_eq_true, beq_iff_eq] at h
        obtain ⟨rest, hrest⟩ := (ih cs).mp h.2
        refine ⟨rest, ?_⟩
        rw [h.1, hrest]
        rfl
      · rintro ⟨rest, hrest⟩
        simp only [List.cons_append, List.cons.injEq] at hrest
        simp only [startsWithL, Bool.and_eq_true, beq_iff_eq]
        exact ⟨hrest.1, (ih cs).mpr ⟨rest, hrest.2⟩⟩

theorem includesL_iff (hay needle : List Char) :
    includesL hay needle = true ↔ SubstrOf needle hay := by
  induction hay with
  | nil =>
    constructor
    · intro h
      cases needle with
      | nil => exact ⟨[], [], rfl⟩
      | cons n ns => simp [includesL] at h
    · rintro ⟨front, back, hfb⟩
      have : needle = [] := by
        cases front <;> cases needle <;> simp_all
      subst this
      rfl
  | cons c t ih =>
    constructor
    · intro h
      simp only [includesL, Bool.or_eq_true] at h
      rcases h with h | h
      · obtain ⟨rest, hr⟩ := (startsWithL_iff _ _).mp h
        exact ⟨[], rest, by rw [hr]; rfl⟩
      · obtain ⟨front, back, hfb⟩ := ih.mp h
        exact ⟨c :: front, back, by rw [hfb]; rfl⟩
    · rintro ⟨front, back, hfb⟩
      simp only [includesL, Bool.or_eq_true]
      cases front with
      | nil =>
        left
        refine (startsWithL_iff _ _).mpr ⟨back, ?_⟩
        simpa using hfb
      | cons f fs =>
        right
        simp only [List.cons_append, List.cons.injEq] at hfb
        exact ih.mpr ⟨fs, back, hfb.2⟩

/- ### Helper lemmas for the normalization pipeline. -/

theorem collapseAux_chars (l : List Char) (b : Bool) :
    ∀ c ∈ collapseAux b l, isLowerAlnum c = true ∨ c = ' ' := by
  induction l generalizing b with
  | nil =>
    intro c hc
    simp [collapseAux] at hc
  | cons x rest ih =>
    intro c hc
    unfold collapseAux at hc
    split at hc
    · next hx =>
      rcases List.mem_cons.mp hc with h | h
      · exact h ▸ Or.inl hx
      · exact ih false c h
    · split at hc
      · exact ih true c hc
      · rcases List.mem_cons.mp hc with h | h
        · exact Or.inr h
        · exact ih true c h

theorem isZeroWidth_eq_false_of_alnum {c : Char} (h : isLowerAlnum c = true) :
    isZeroWidth c = false := by
  cases hz : isZeroWidth c
  · rfl
  · exfalso
    unfold isZeroWidth at hz
    simp only [Bool.or_eq_true, beq_iff_eq] at hz
    rcases hz with ((h1 | h1) | h1) | h1 <;> subst h1 <;> exact absurd h (by decide)

theorem stripZeroWidth_collapseAux (b : Bool) (l : List Char) :
    stripZeroWidth (collapseAux b l) = collapseAux b l := by
  apply List.filter_eq_self.mpr
  intro c hc
  rcases collapseAux_chars l b c hc with h | h
  · rw [isZeroWidth_eq_false_of_alnum h]
    rfl
  · subst h
    rfl

/- ### Claim theorems about the variant mapper matching. -/

/-- Claim C3 counterexample: the containment test of `matchesByValues` is
not the one-directional test the claim states.  With bundle value blob
`"black"` and component option value `"Obsidian Black"`, the code reports
a match although the component's normalized value `"obsidian black"` is
not a substring of the blob. -/
theorem c3_counterexample_reverse_containment :
    matchesByValues c3BundleVar c3ComponentVar = true ∧
    ¬ MatchesByValuesSpec c3BundleVar c3ComponentVar := by
  refine ⟨rfl, ?_⟩
  intro h
  have h2 := h { name := "Color", value := "Obsidian Black" } (List.mem_cons_self _ _)
  have h3 := (includesL_iff (variantValueBlob c3BundleVar).data
    (norm "Obsidian Black").data).mpr h2
  exact absurd h3 (by decide)

/-- Claim C3 as amended: a component variant matches a bundle variant if
and only if each of its normalized option values is a substring of the
bundle's value blob or the blob is a substring of that value (the test is
containment in either direction).  The claim's examples stand: blob
`"obsidian black"` matches component value `"black"` and fails component
value `"blue"`. -/
theorem c3_bidirectional_containment_match (bundleVar componentVar : VariantNode) :
    matchesByValues bundleVar componentVar = true ↔
      ∀ o ∈ componentVar.selectedOptions,
        SubstrOf (norm o.value).data (variantValueBlob bundleVar).data ∨
        SubstrOf (variantValueBlob bundleVar).data (norm o.value).data := by
  unfold matchesByValues
  dsimp only
  rw [List.all_eq_true]
  constructor
  · intro h o ho
    have h2 := h o ho
    rcases Bool.or_eq_true_iff.mp h2 with h3 | h3
    · exact Or.inl ((includesL_iff _ _).mp h3)
    · exact Or.inr ((includesL_iff _ _).mp h3)
  · intro h o ho
    rcases h o ho with h3 | h3
    · exact Bool.or_eq_true_iff.mpr (Or.inl ((includesL_iff _ _).mpr h3))
    · exact Bool.or_eq_true_iff.mpr (Or.inr ((includesL_iff _ _).mpr h3))

/-- Claim C8: `norm` is total by construction, and for every input string
it computes exactly the spec's pipeline — lowercase, collapse runs of
non-alphanumeric characters to single spaces, strip zero-width
characters, trim — the zero-width strip being subsumed by the collapse
step. -/
theorem c8_norm_equals_spec_pipeline (s : String) : norm s = normSpec s := by
  unfold norm normSpec collapseNonAlnum
  rw [stripZeroWidth_collapseAux]

/- ### Helper lemmas about the mapper loop. -/

theorem collectComponentMetafields_missing
    (comp1Variants comp2Variants bundleVariants : List VariantNode) :
    (collectComponentMetafields comp1Variants comp2Variants bundleVariants).2 =
      unmappedBlobs comp1Variants comp2Variants bundleVariants := by
  induction bundleVariants with
  | nil => rfl
  | cons bv rest ih =>
    unfold collectComponentMetafields unmappedBlobs
    unfold unmappedBlobs at ih
    rw [List.filterMap_cons]
    rcases hrec : collectComponentMetafields comp1Variants comp2Variants rest with ⟨mfs, missing⟩
    rw [hrec] at ih
    dsimp only at ih
    cases h1 : comp1Variants.find? fun v => matchesByValues bv v with
    | none => simp [hrec, h1, ih]
    | some w1 =>
      cases h2 : comp2Variants.find? fun v => matchesByValues bv v with
      | none => simp [hrec, h1, h2, ih]
      | some w2 => simp [hrec, h1, h2, ih]

/- ### Claim theorems about the mapper's failure handling. -/

/-- Claim C4: when some bundle variant matches no variant of one of the
two component products (and the precondition checks pass), the whole
mapping operation fails: no batched metafield write is performed and the
returned error reports, in order, the value blob (or the id when the
blob is empty) of every unmapped bundle variant. -/
theorem c4_unmapped_variant_fails_whole_operation
    (bundleVariants comp1Variants comp2Variants : List VariantNode)
    (userErrors : List String) (bv : VariantNode)
    (hbv : bv ∈ bundleVariants)
    (h1 : comp1Variants ≠ []) (h2 : comp2Variants ≠ [])
    (hun : (comp1Variants.find? fun v => matchesByValues bv v) = none ∨
           (comp2Variants.find? fun v => matchesByValues bv v) = none) :
    (writeBundleComponentsMetafields bundleVariants comp1Variants comp2Variants
      userErrors).writes = [] ∧
    (writeBundleComponentsMetafields bundleVariants comp1Variants comp2Variants
      userErrors).result =
      .error ("Could not map these bundle variant values to component variants: " ++
        jsJoin ", " (unmappedBlobs comp1Variants comp2Variants bundleVariants)) ∧
    (collectComponentMetafields comp1Variants comp2Variants bundleVariants).2 =
      unmappedBlobs comp1Variants comp2Variants bundleVariants := by
  have hb : bundleVariants ≠ [] := List.ne_nil_of_mem hbv
  have hmem : blobOrId bv ∈ unmappedBlobs comp1Variants comp2Variants bundleVariants := by
    unfold unmappedBlobs
    apply List.mem_filterMap.mpr
    refine ⟨bv, hbv, ?_⟩
    rcases hun with h | h <;> simp [h]
  have hb0 : (bundleVariants.length == 0) = false := by
    simp only [beq_eq_false_iff_ne, ne_eq, List.length_eq_zero]
    exact hb
  have h10 : (comp1Variants.length == 0) = false := by
    simp only [beq_eq_false_iff_ne, ne_eq, List.length_eq_zero]
    exact h1
  have h20 : (comp2Variants.length == 0) = false := by
    simp only [beq_eq_false_iff_ne, ne_eq, List.length_eq_zero]
    exact h2
  have hmain : writeBundleComponentsMetafields bundleVariants comp1Variants comp2Variants
      userErrors =
      { writes := []
        result := .error
          ("Could not map these bundle variant values to component variants: " ++
            jsJoin ", " (unmappedBlobs comp1Variants comp2Variants bundleVariants)) } := by
    unfold writeBundleComponentsMetafields
    rw [hb0, h10, h20]
    dsimp only
    rcases hrec : collectComponentMetafields comp1Variants comp2Variants bundleVariants
      with ⟨mfs, missing⟩
    have hmiss : missing = unmappedBlobs comp1Variants comp2Variants bundleVariants := by
      have := collectComponentMetafields_missing comp1Variants comp2Variants bundleVariants
      rw [hrec] at this
      exact this
    have hne : (missing.length != 0) = true := by
      simp only [bne_iff_ne, ne_eq, List.length_eq_zero]
      rw [hmiss]
      exact List.ne_nil_of_mem hmem
    dsimp only
    rw [hne, hmiss]
    rfl
  exact ⟨by rw [hmain], by rw [hmain],
    collectComponentMetafields_missing comp1Variants comp2Variants bundleVariants⟩

/-- Witness for C4: one bundle variant with value `"Red"` and two
single-variant components with value `"Blue"` — unmapped, so no write
happens and the error lists the blob `"red"`. -/
theorem c4_unmapped_variant_fails_whole_operation_witness :
    (writeBundleComponentsMetafields [c4Bv] [c4Comp1] [c4Comp2] []).writes = [] ∧
    (writeBundleComponentsMetafields [c4Bv] [c4Comp1] [c4Comp2] []).result =
      .error ("Could not map these bundle variant values to component variants: " ++
        jsJoin ", " (unmappedBlobs [c4Comp1] [c4Comp2] [c4Bv])) ∧
    (collectComponentMetafields [c4Comp1] [c4Comp2] [c4Bv]).2 =
      unmappedBlobs [c4Comp1] [c4Comp2] [c4Bv] :=
  c4_unmapped_variant_fails_whole_operation [c4Bv] [c4Comp1] [c4Comp2] [] c4Bv
    (List.mem_cons_self _ _) (List.cons_ne_nil _ _) (List.cons_ne_nil _ _) (Or.inl rfl)

/-- Claim C9: with an empty bundle variant list, or an empty variant list
on either component product, the mapper fails immediately with its
descriptive error and performs no metafield write. -/
theorem c9_empty_variant_lists_fail_fast
    (bundleVariants comp1Variants comp2Variants : List VariantNode)
    (userErrors : List String)
    (h : bundleVariants = [] ∨ comp1Variants = [] ∨ comp2Variants = []) :
    (writeBundleComponentsMetafields bundleVariants comp1Variants comp2Variants
      userErrors).writes = [] ∧
    ((writeBundleComponentsMetafields bundleVariants comp1Variants comp2Variants
        userErrors).result = .error "Bundle has no variants." ∨
     (writeBundleComponentsMetafields bundleVariants comp1Variants comp2Variants
        userErrors).result = .error "A component product has no variants.") := by
  unfold writeBundleComponentsMetafields
  rcases h with h | h | h
  · subst h
    exact ⟨rfl, Or.inl rfl⟩
  · subst h
    split
    · exact ⟨rfl, Or.inl rfl⟩
    · exact ⟨rfl, Or.inr rfl⟩
  · subst h
    split
    · exact ⟨rfl, Or.inl rfl⟩
    · split
      · exact ⟨rfl, Or.inr rfl⟩
      · next hcond =>
        exfalso
        apply hcond
        simp
  
/-- Witness for C9 with every list empty. -/
theorem c9_empty_variant_lists_fail_fast_witness :
    (writeBundleComponentsMetafields [] [] [] []).writes = [] ∧
    ((writeBundleComponentsMetafields [] [] [] []).result =
        .error "Bundle has no variants." ∨
     (writeBundleComponentsMetafields [] [] [] []).result =
        .error "A component product has no variants.") :=
  c9_empty_variant_lists_fail_fast [] [] [] [] (Or.inl rfl)

/- ### Claim theorem about the sync-time single-default-variant case. -/

/-- Claim C7: when both component products have exactly one variant, each
titled "Default Title" (the platform's single-default-variant marker),
`syncBundleVariants` skips value matching entirely and performs exactly
one metafield write, mapping the bundle's sole variant to the two sole
component variants — whatever option-value text any of the variants
carry. -/
theorem c7_single_default_variant_direct_map
    (bundleProductId : String) (bundle productA productB refreshedBundle : ProductNode)
    (finalVariants : List SyncVariantNode) (a b bundleVariant : SyncVariantNode)
    (ha : productA.variants = [a]) (hb : productB.variants = [b])
    (hat : a.title = "Default Title") (hbt : b.title = "Default Title")
    (hbv : bundle.variants = [bundleVariant]) :
    syncBundleVariants bundleProductId bundle productA productB refreshedBundle
      finalVariants = .ok [.metafieldWrite bundleVariant.id [a.id, b.id]] := by
  unfold syncBundleVariants
  rw [ha, hb]
  dsimp only
  rw [hat, hbt, hbv]
  rfl

/-- Witness for C7 at components and a bundle whose option values are
pairwise unrelated text. -/
theorem c7_single_default_variant_direct_map_witness :
    syncBundleVariants "gid://shopify/Product/70" c7Bundle c7ProductA c7ProductB
      c7Bundle [] = .ok [.metafieldWrite c7BundleVar.id [c7A.id, c7B.id]] :=
  c7_single_default_variant_direct_map "gid://shopify/Product/70" c7Bundle c7ProductA
    c7ProductB c7Bundle [] c7A c7B c7BundleVar rfl rfl rfl rfl rfl

end SimpleBundler
